import Mathlib

set_option maxRecDepth 8192

/-!
Verification of the process-dispatch core of the Debian Control Center launcher
(`usr/share/debian-control-center/app.py`).

The program is UI plumbing around three launching mechanisms:

* `run_polkit_command` — spawns `pkexec env DISPLAY=... XAUTHORITY=... bash -lc cmd`,
  catching and logging any spawn error;
* `run_terminal_command` — walks a fixed ordered list of terminal emulators,
  probes each with `shutil.which`, spawns the first installed one (wrapping the
  command in a lingering login shell), logs and falls through on a spawn error,
  and warns if none is installed;
* per-button click handlers, some of which guard their spawn with a
  `shutil.which` check and warn when the tool is missing, and some of which
  call `subprocess.Popen` unguarded.

The embedding makes the host configuration explicit: `which : String → Bool`
models `shutil.which` (installed-binary probe), `fails : List String → Bool`
models whether `subprocess.Popen` raises on a given argument vector, and
`env : String → Option String` models `os.environ.get`.  Each embedded
function returns the ordered trace of observable events (probes, successful
process spawns, console logs, modal dialogs) that the Python code performs.
-/

namespace DCC

/-- Observable events of a single UI action, in program order.
`probe` is a `shutil.which` lookup; `spawn` is a successful `subprocess.Popen`
(the process was created); `log` is a `print` to the console; `warn` is a
modal `QMessageBox.warning`; `ask` is a modal yes/no `QMessageBox.question`;
`pick` is a `QFileDialog.getOpenFileName` call (caption, directory, filter). -/
inductive Event where
  | probe (binary : String)
  | spawn (argv : List String)
  | log (msg : String)
  | warn (title text : String)
  | ask (title text : String)
  | pick (caption dir filter : String)
  deriving DecidableEq, Repr

/-- Host model: is a binary name resolvable on the search path (`shutil.which`)? -/
abbrev Which := String → Bool

/-- Host model: does `subprocess.Popen` raise on this argument vector? -/
abbrev Fails := List String → Bool

/-- Predicate selecting successful-spawn events in a trace. -/
def isSpawnEv : Event → Bool
  | Event.spawn _ => true
  | _ => false

/-- Predicate selecting warning-dialog events in a trace. -/
def isWarnEv : Event → Bool
  | Event.warn _ _ => true
  | _ => false

/-- The single string argument appended to a terminal's launch vector
(app.py line 86): a login shell that escalates the command with sudo, prints a
completion banner and blocks on a read before the terminal closes. -/
def wrapCmd (cmd : String) : String :=
  "bash -lc \"sudo " ++ cmd ++
    "; echo; echo \x27[Comando APT finalizado!]\x27; read -p \x27Pressione ENTER para fechar...\x27 _\""

/-- The fixed terminal candidate table of `run_terminal_command`
(app.py lines 72-80): (binary name, launch vector) pairs, in declared
preference order.  Only the xterm entry mentions the window title. -/
def terminals (title : String) : List (String × List String) :=
  [("konsole", ["konsole", "-e"]),
   ("konsole6", ["konsole6", "-e"]),
   ("qterminal", ["qterminal", "-e"]),
   ("tilix", ["tilix", "-e"]),
   ("xfce4-terminal", ["xfce4-terminal", "-e"]),
   ("kgx", ["kgx", "--"]),
   ("xterm", ["xterm", "-T", title, "-e"])]

/-- The six candidates preceding xterm in the table; none of their entries
mentions the title, so `terminals title = baseT ++ [xterm entry]` for every
title. -/
def baseT : List (String × List String) :=
  [("konsole", ["konsole", "-e"]),
   ("konsole6", ["konsole6", "-e"]),
   ("qterminal", ["qterminal", "-e"]),
   ("tilix", ["tilix", "-e"]),
   ("xfce4-terminal", ["xfce4-terminal", "-e"]),
   ("kgx", ["kgx", "--"])]

/-- The warning text shown when no candidate terminal is installed
(app.py lines 93-98). -/
def noTerminalMsg : String :=
  "Nenhum terminal compatível encontrado.\nInstale: konsole, xterm, tilix, qterminal, kgx ou xfce4-terminal."

/-- The loop of `run_terminal_command` (app.py lines 82-98) over a candidate
list: probe each binary in order; on the first installed one attempt the spawn,
returning on success; on a spawn error print and continue with the next
candidate; after exhausting the list show the warning dialog. -/
def runTerminalLoop (which : Which) (fails : Fails) (cmd : String) :
    List (String × List String) → List Event
  | [] => [Event.warn "Erro" noTerminalMsg]
  | (binary, launch) :: rest =>
    if which binary then
      if fails (launch ++ [wrapCmd cmd]) then
        Event.probe binary :: Event.log ("Erro ao tentar terminal " ++ binary ++ ":") ::
          runTerminalLoop which fails cmd rest
      else
        [Event.probe binary, Event.spawn (launch ++ [wrapCmd cmd])]
    else
      Event.probe binary :: runTerminalLoop which fails cmd rest

/-- `run_terminal_command(title, cmd)` (app.py lines 66-98). -/
def run_terminal_command (which : Which) (fails : Fails) (title cmd : String) : List Event :=
  runTerminalLoop which fails cmd (terminals title)

/-- The argument vector built by `run_polkit_command` (app.py lines 56-61):
`pkexec env DISPLAY=<cur> XAUTHORITY=<cur> bash -lc cmd`, where each variable's
current value is read with `os.environ.get(name, "")` (empty string when
unset). -/
def polkitArgv (env : String → Option String) (cmd : String) : List String :=
  ["pkexec", "env",
   "DISPLAY=" ++ (env "DISPLAY").getD "",
   "XAUTHORITY=" ++ (env "XAUTHORITY").getD "",
   "bash", "-lc", cmd]

/-- `run_polkit_command(cmd)` (app.py lines 53-63): spawn the pkexec vector;
if the spawn raises, catch and print to the console only. -/
def run_polkit_command (env : String → Option String) (fails : Fails) (cmd : String) :
    List Event :=
  if fails (polkitArgv env cmd) then [Event.log "Error executing pkexec:"]
  else [Event.spawn (polkitArgv env cmd)]

/-- The user's resolution of a modal yes/no question.  Dismissing the dialog
(Escape / window close) activates the No button in Qt, so it is the `no`
case. -/
inductive Reply where
  | yes
  | no
  deriving DecidableEq, Repr

/-- `ask_question(parent, title, text)` (app.py lines 39-50): both the PyQt5
and the PyQt6 branch return `reply == Yes`. -/
def ask_question (r : Reply) : Bool :=
  match r with
  | Reply.yes => true
  | Reply.no => false

/-- `MainWindow.confirm_autoclean` (app.py lines 303-305): show the
confirmation question; on yes run `apt clean` in a terminal, else nothing. -/
def confirm_autoclean (r : Reply) (which : Which) (fails : Fails) : List Event :=
  Event.ask "Confirmar" "Isto removerá TODOS os pacotes do cache.\nDeseja continuar?" ::
    (if ask_question r then run_terminal_command which fails "apt clean" "apt clean" else [])

/-- `MainWindow.confirm_autoremove` (app.py lines 307-311). -/
def confirm_autoremove (r : Reply) (which : Which) (fails : Fails) : List Event :=
  Event.ask "Confirmar" "Isto removerá somente os pacotes órfãos.\nDeseja continuar?" ::
    (if ask_question r then
      run_terminal_command which fails "apt autoremove --purge -y" "apt autoremove --purge -y"
    else [])

/-- `MainWindow.confirm_fixbroken` (app.py lines 313-315). -/
def confirm_fixbroken (r : Reply) (which : Which) (fails : Fails) : List Event :=
  Event.ask "Confirmar" "Esta ação corrigirá as dependências quebradas.\nDeseja continuar?" ::
    (if ask_question r then
      run_terminal_command which fails "apt fix-broken" "apt --fix-broken install -y"
    else [])

/-- `MainWindow.confirm_upgrade` (app.py lines 317-319). -/
def confirm_upgrade (r : Reply) (which : Which) (fails : Fails) : List Event :=
  Event.ask "Confirmar" "Atualizar todos os pacotes?" ::
    (if ask_question r then
      run_terminal_command which fails "apt update && sudo apt full-upgrade -y"
        "apt update && sudo apt full-upgrade -y"
    else [])

/-- `MainWindow.open_hardinfo` (app.py lines 293-299): prefer hardinfo2, then
hardinfo, else warn. -/
def open_hardinfo (which : Which) : List Event :=
  if which "hardinfo2" then [Event.spawn ["hardinfo2"]]
  else if which "hardinfo" then [Event.spawn ["hardinfo"]]
  else [Event.warn "Erro" "Hardinfo não instalado."]

/-- `MainWindow.open_deb_dialog` (app.py lines 323-337), as a function of the
path the file picker returned (`""` when the picker was cancelled, matching
Python's falsy empty string): on a non-empty path, spawn the viewer if
`deb-gview` is installed, else warn; on an empty path do nothing further. -/
def open_deb_dialog (pickedPath : String) (which : Which) : List Event :=
  Event.pick "Selecionar arquivo .deb" "/var/cache/apt/archives" "Pacotes Debian (*.deb)" ::
    (if pickedPath = "" then []
    else if which "deb-gview" then [Event.spawn ["deb-gview", pickedPath]]
    else [Event.warn "Erro" "deb-gview não instalado."])

/-- The click handler wired to the "Instalador de Pacotes .deb" button
(app.py line 139): `lambda: subprocess.Popen(["gdebi-gtk"])`, with no
installation check and no exception handler.  When the binary is missing,
`Popen` raises `FileNotFoundError`; the Boolean component records that this
exception escapes the handler (no dialog is shown). -/
def gdebi_clicked (which : Which) : List Event × Bool :=
  if which "gdebi-gtk" then ([Event.spawn ["gdebi-gtk"]], false)
  else ([], true)

/-- The flatpak invocation of `MainWindow.open_sysd_manager` (app.py
lines 346-353). -/
def sysdManagerArgv : List String :=
  ["flatpak", "run", "--branch=stable", "--arch=x86_64", "--command=sysd-manager",
   "io.github.plrigaux.sysd-manager"]

/-- `MainWindow.open_sysd_manager` (app.py lines 341-362): warn and return if
flatpak is missing; otherwise spawn, warning on a spawn error (the runtime
message also carries the exception text, elided here). -/
def open_sysd_manager (which : Which) (fails : Fails) : List Event :=
  if !which "flatpak" then [Event.warn "Erro" "Flatpak não instalado."]
  else if fails sysdManagerArgv then
    [Event.warn "Erro" "Não foi possível executar o sysd-manager:\n"]
  else [Event.spawn sysdManagerArgv]

/-- The flatpak invocation of `MainWindow.open_resources` (app.py
lines 370-377). -/
def resourcesArgv : List String :=
  ["flatpak", "run", "--branch=stable", "--arch=x86_64", "--command=resources",
   "net.nokyan.Resources"]

/-- `MainWindow.open_resources` (app.py lines 365-386): warn and return if
flatpak is missing; otherwise spawn, warning on a spawn error (the runtime
message also carries the exception text, elided here). -/
def open_resources (which : Which) (fails : Fails) : List Event :=
  if !which "flatpak" then [Event.warn "Erro" "Flatpak não instalado."]
  else if fails resourcesArgv then
    [Event.warn "Erro" "Não foi possível executar o Resources:\n"]
  else [Event.spawn resourcesArgv]

/-- The flatpak invocation of `MainWindow.open_warehouse` (app.py
lines 418-425). -/
def warehouseArgv : List String :=
  ["flatpak", "run", "--branch=stable", "--arch=x86_64", "--command=warehouse",
   "io.github.flattool.Warehouse"]

/-- `MainWindow.open_warehouse` (app.py lines 413-434): warn and return if
flatpak is missing; otherwise spawn, warning on a spawn error (the runtime
message also carries the exception text, elided here). -/
def open_warehouse (which : Which) (fails : Fails) : List Event :=
  if !which "flatpak" then [Event.warn "Erro" "Flatpak não instalado."]
  else if fails warehouseArgv then
    [Event.warn "Erro" "Não foi possível executar o Warehouse:\n"]
  else [Event.spawn warehouseArgv]

/-- The flatpak invocation of `MainWindow.open_flatsweep` (app.py
lines 442-449). -/
def flatsweepArgv : List String :=
  ["flatpak", "run", "--branch=stable", "--arch=x86_64", "--command=flatsweep",
   "io.github.giantpinkrobots.flatsweep"]

/-- `MainWindow.open_flatsweep` (app.py lines 437-458): warn and return if
flatpak is missing; otherwise spawn, warning on a spawn error (the runtime
message also carries the exception text, elided here). -/
def open_flatsweep (which : Which) (fails : Fails) : List Event :=
  if !which "flatpak" then [Event.warn "Erro" "Flatpak não instalado."]
  else if fails flatsweepArgv then
    [Event.warn "Erro" "Não foi possível executar o Flatsweep:\n"]
  else [Event.spawn flatsweepArgv]

/-! ### Helper lemmas about the terminal-candidate loop -/

theorem loop_none_installed (which : Which) (fails : Fails) (cmd : String) :
    ∀ ts : List (String × List String), (∀ t ∈ ts, which t.1 = false) →
      runTerminalLoop which fails cmd ts =
        ts.map (fun t => Event.probe t.1) ++ [Event.warn "Erro" noTerminalMsg] := by
  intro ts
  induction ts with
  | nil => intro _; rfl
  | cons t rest ih =>
    intro h
    obtain ⟨b, l⟩ := t
    have hb : which b = false := h (b, l) (List.mem_cons_self _ _)
    simp [runTerminalLoop, hb, ih (fun u hu => h u (List.mem_cons_of_mem _ hu))]

theorem loop_first_match (which : Which) (cmd : String) (b : String) (l : List String) :
    ∀ ts : List (String × List String),
      ts.find? (fun t => which t.1) = some (b, l) →
      runTerminalLoop which (fun _ => false) cmd ts =
        (ts.takeWhile (fun t => !which t.1)).map (fun t => Event.probe t.1)
          ++ [Event.probe b, Event.spawn (l ++ [wrapCmd cmd])] := by
  intro ts
  induction ts with
  | nil => intro h; simp [List.find?] at h
  | cons t rest ih =>
    intro h
    obtain ⟨b0, l0⟩ := t
    cases hb : which b0
    · simp only [List.find?, hb] at h
      simp [runTerminalLoop, List.takeWhile, hb, ih h]
    · simp only [List.find?, hb] at h
      obtain ⟨rfl, rfl⟩ : b0 = b ∧ l0 = l := by
        simpa [Prod.ext_iff] using h
      simp [runTerminalLoop, List.takeWhile, hb]

theorem loop_spawn_count (which : Which) (fails : Fails) (cmd : String) :
    ∀ ts : List (String × List String),
      (runTerminalLoop which fails cmd ts).countP isSpawnEv ≤ 1 := by
  intro ts
  induction ts with
  | nil => simp [runTerminalLoop, isSpawnEv]
  | cons t rest ih =>
    obtain ⟨b, l⟩ := t
    cases hb : which b
    · simpa [runTerminalLoop, hb, List.countP_cons, isSpawnEv] using ih
    · cases hf : fails (l ++ [wrapCmd cmd])
      · simp [runTerminalLoop, hb, hf, List.countP_cons, isSpawnEv]
      · simpa [runTerminalLoop, hb, hf, List.countP_cons, isSpawnEv] using ih

theorem loop_probe_count (which : Which) (fails : Fails) (cmd : String) (x : String) :
    ∀ ts : List (String × List String),
      (runTerminalLoop which fails cmd ts).count (Event.probe x) ≤
        (ts.map Prod.fst).count x := by
  intro ts
  induction ts with
  | nil => simp [runTerminalLoop, List.count_cons]
  | cons t rest ih =>
    obtain ⟨b, l⟩ := t
    have hpp : (Event.probe b == Event.probe x) = (b == x) := by
      by_cases h : b = x <;> simp [h]
    cases hb : which b
    · simp [runTerminalLoop, hb, List.count_cons, hpp]
      omega
    · cases hf : fails (l ++ [wrapCmd cmd])
      · have hsp : (Event.spawn (l ++ [wrapCmd cmd]) == Event.probe x) = false := by
          simp [beq_eq_false_iff_ne]
        simp [runTerminalLoop, hb, hf, List.count_cons, hpp, hsp]
      · have hlp : ((Event.log ("Erro ao tentar terminal " ++ b ++ ":")) ==
            Event.probe x) = false := by
          simp [beq_eq_false_iff_ne]
        simp [runTerminalLoop, hb, hf, List.count_cons, hpp, hlp]
        omega

theorem find?_append_some {α : Type} {p : α → Bool} {v : α} :
    ∀ (l1 l2 : List α), l1.find? p = some v → (l1 ++ l2).find? p = some v := by
  intro l1
  induction l1 with
  | nil => intro l2 h; simp [List.find?] at h
  | cons a l ih =>
    intro l2 h
    cases hp : p a
    · simp only [List.find?, hp] at h
      simpa [List.find?, hp] using ih l2 h
    · simp only [List.find?, hp] at h
      simpa [List.find?, hp] using h

theorem find?_append_none {α : Type} {p : α → Bool} :
    ∀ (l1 l2 : List α), l1.find? p = none → (l1 ++ l2).find? p = l2.find? p := by
  intro l1
  induction l1 with
  | nil => intro l2 _; rfl
  | cons a l ih =>
    intro l2 h
    cases hp : p a
    · simp only [List.find?, hp] at h
      simpa [List.find?, hp] using ih l2 h
    · simp [List.find?, hp] at h

theorem takeWhile_append_stop {α : Type} {p : α → Bool} {v : α} :
    ∀ (l1 l2 : List α), l1.find? p = some v →
      (l1 ++ l2).takeWhile (fun a => !p a) = l1.takeWhile (fun a => !p a) := by
  intro l1
  induction l1 with
  | nil => intro l2 h; simp [List.find?] at h
  | cons a l ih =>
    intro l2 h
    cases hp : p a
    · simp only [List.find?, hp] at h
      simp [List.takeWhile, hp, ih l2 h]
    · simp [List.takeWhile, hp]

theorem mem_takeWhile_pred {α : Type} {p : α → Bool} :
    ∀ (l : List α) (a : α), a ∈ l.takeWhile p → p a = true := by
  intro l
  induction l with
  | nil => intro a h; simp [List.takeWhile] at h
  | cons x xs ih =>
    intro a h
    cases hp : p x
    · simp [List.takeWhile, hp] at h
    · simp only [List.takeWhile, hp] at h
      rcases List.mem_cons.mp h with rfl | h
      · exact hp
      · exact ih a h

theorem filter_isWarn_map_probe :
    ∀ ts : List (String × List String),
      (ts.map (fun t => Event.probe t.1)).filter isWarnEv = [] := by
  intro ts
  induction ts with
  | nil => rfl
  | cons t rest ih => simp [List.filter, isWarnEv, ih]

/-! ### Claims about `run_terminal_command` -/

/-- Claim C1: whenever at least one candidate of the fixed terminal list is
installed — stated as `find?` returning the first installed candidate `(b, l)`
— `run_terminal_command` (with no spawn failures) produces exactly the probes
of the uninstalled candidates preceding `b`, the probe of `b`, and the single
spawn of `b`'s launch vector; consequently every probed binary is either
uninstalled or `b` itself (no later candidate is probed), and every spawned
argument vector is `b`'s (no later candidate is spawned). -/
theorem claim_C1_first_installed_spawned (which : Which) (title cmd : String)
    (b : String) (l : List String)
    (h : (terminals title).find? (fun t => which t.1) = some (b, l)) :
    run_terminal_command which (fun _ => false) title cmd =
      ((terminals title).takeWhile (fun t => !which t.1)).map (fun t => Event.probe t.1)
        ++ [Event.probe b, Event.spawn (l ++ [wrapCmd cmd])] ∧
    (∀ x, Event.probe x ∈ run_terminal_command which (fun _ => false) title cmd →
      which x = false ∨ x = b) ∧
    (∀ a, Event.spawn a ∈ run_terminal_command which (fun _ => false) title cmd →
      a = l ++ [wrapCmd cmd]) := by
  have heq : run_terminal_command which (fun _ => false) title cmd =
      ((terminals title).takeWhile (fun t => !which t.1)).map (fun t => Event.probe t.1)
        ++ [Event.probe b, Event.spawn (l ++ [wrapCmd cmd])] :=
    loop_first_match which cmd b l (terminals title) h
  refine ⟨heq, ?_, ?_⟩
  · intro x hx
    rw [heq] at hx
    simp only [List.mem_append, List.mem_map, List.mem_cons, List.mem_singleton] at hx
    rcases hx with ⟨t, ht, hpe⟩ | hpe | hpe
    · have hx1 : t.1 = x := by
        simpa using hpe
      have := mem_takeWhile_pred _ t ht
      rw [hx1] at this
      simp only [Bool.not_eq_true'] at this
      exact Or.inl this
    · right
      exact Event.probe.inj hpe
    · exact absurd hpe (by simp)
  · intro a ha
    rw [heq] at ha
    simp only [List.mem_append, List.mem_map, List.mem_cons, List.mem_singleton] at ha
    rcases ha with ⟨t, _, hpe⟩ | hpe | hpe
    · exact absurd hpe (by simp)
    · exact absurd hpe (by simp)
    · simpa using hpe.symm

/-- Witness for C1 at the spec's scenario: A = konsole not installed,
B = konsole6 installed, C = qterminal installed.  The runner probes konsole,
probes and spawns konsole6, and never probes qterminal. -/
theorem claim_C1_first_installed_spawned_witness :
    run_terminal_command (fun s => s == "konsole6" || s == "qterminal") (fun _ => false)
        "apt clean" "apt clean" =
      [Event.probe "konsole", Event.probe "konsole6",
       Event.spawn (["konsole6", "-e"] ++ [wrapCmd "apt clean"])] ∧
    Event.probe "qterminal" ∉
      run_terminal_command (fun s => s == "konsole6" || s == "qterminal") (fun _ => false)
        "apt clean" "apt clean" :=
  ⟨((claim_C1_first_installed_spawned (fun s => s == "konsole6" || s == "qterminal")
      "apt clean" "apt clean" "konsole6" ["konsole6", "-e"] (by decide)).1).trans (by decide),
   by decide⟩

/-- Counterexample for C3 as stated: the zero-candidates warning dialog does
not name the full supported terminal set.  `konsole6` is one of the seven
supported candidates of the table, yet the warning text contains no occurrence
of `konsole6`. -/
theorem claim_C3_counterexample :
    run_terminal_command (fun _ => false) (fun _ => false) "apt clean" "apt clean" =
      ((terminals "apt clean").map fun t => Event.probe t.1)
        ++ [Event.warn "Erro" noTerminalMsg] ∧
    "konsole6" ∈ (terminals "apt clean").map Prod.fst ∧
    ¬ ("konsole6".data <:+: noTerminalMsg.data) := by
  refine ⟨?_, by decide, by decide⟩
  exact loop_none_installed (fun _ => false) (fun _ => false) "apt clean"
    (terminals "apt clean") (fun _ _ => rfl)

/-- Claim C3 (amended): when zero candidates are installed,
`run_terminal_command` only probes each candidate and then shows a single
blocking warning dialog; it spawns no process, logs nothing, and the warning
text names six of the seven supported terminals (all but `konsole6`). -/
theorem claim_C3_no_terminal_warns (which : Which) (fails : Fails) (title cmd : String)
    (h : ∀ t ∈ terminals title, which t.1 = false) :
    run_terminal_command which fails title cmd =
      ((terminals title).map fun t => Event.probe t.1) ++ [Event.warn "Erro" noTerminalMsg] ∧
    (∀ a, Event.spawn a ∉ run_terminal_command which fails title cmd) ∧
    (∀ m, Event.log m ∉ run_terminal_command which fails title cmd) ∧
    (run_terminal_command which fails title cmd).filter isWarnEv =
      [Event.warn "Erro" noTerminalMsg] ∧
    ("konsole".data <:+: noTerminalMsg.data) ∧
    ("xterm".data <:+: noTerminalMsg.data) ∧
    ("tilix".data <:+: noTerminalMsg.data) ∧
    ("qterminal".data <:+: noTerminalMsg.data) ∧
    ("kgx".data <:+: noTerminalMsg.data) ∧
    ("xfce4-terminal".data <:+: noTerminalMsg.data) := by
  have heq : run_terminal_command which fails title cmd =
      ((terminals title).map fun t => Event.probe t.1) ++ [Event.warn "Erro" noTerminalMsg] :=
    loop_none_installed which fails cmd (terminals title) h
  refine ⟨heq, ?_, ?_, ?_, by decide, by decide, by decide, by decide, by decide, by decide⟩
  · intro a ha
    rw [heq] at ha
    simp at ha
  · intro m hm
    rw [heq] at hm
    simp at hm
  · rw [heq, List.filter_append, filter_isWarn_map_probe]
    simp [isWarnEv]

/-- Witness for C3 (amended): with no binary installed, the trace for the
upgrade command is the seven probes followed by the single warning. -/
theorem claim_C3_no_terminal_warns_witness :
    run_terminal_command (fun _ => false) (fun _ => true) "apt clean" "apt clean" =
      ((terminals "apt clean").map fun t => Event.probe t.1)
        ++ [Event.warn "Erro" noTerminalMsg] ∧
    (run_terminal_command (fun _ => false) (fun _ => true) "apt clean" "apt clean").filter
      isWarnEv = [Event.warn "Erro" noTerminalMsg] :=
  ⟨(claim_C3_no_terminal_warns (fun _ => false) (fun _ => true) "apt clean" "apt clean"
      (fun _ _ => rfl)).1,
   (claim_C3_no_terminal_warns (fun _ => false) (fun _ => true) "apt clean" "apt clean"
      (fun _ _ => rfl)).2.2.2.1⟩

/-- Claim C5: if the head candidate is installed but its spawn raises, the
trace is its probe, then the logged error naming the candidate, then exactly
the continuation of the loop on the remaining candidates (in order, with no
other recovery); moreover within a single `run_terminal_command` call no
candidate is ever probed twice (no retry). -/
theorem claim_C5_spawn_failure_falls_through (which : Which) (fails : Fails)
    (cmd b : String) (l : List String) (rest : List (String × List String))
    (hb : which b = true) (hf : fails (l ++ [wrapCmd cmd]) = true) :
    runTerminalLoop which fails cmd ((b, l) :: rest) =
      Event.probe b :: Event.log ("Erro ao tentar terminal " ++ b ++ ":") ::
        runTerminalLoop which fails cmd rest ∧
    (∀ title x, (run_terminal_command which fails title cmd).count (Event.probe x) ≤ 1) := by
  constructor
  · simp [runTerminalLoop, hb, hf]
  · intro title x
    have h1 := loop_probe_count which fails cmd x (terminals title)
    have h2 : ((terminals title).map Prod.fst).count x ≤ 1 := by
      have hnd : ((terminals title).map Prod.fst).Nodup := by
        show (["konsole", "konsole6", "qterminal", "tilix", "xfce4-terminal", "kgx",
          "xterm"] : List String).Nodup
        decide
      exact List.nodup_iff_count_le_one.mp hnd x
    exact le_trans h1 h2

/-- Witness for C5: konsole is installed but fails to spawn; the loop logs the
konsole error and proceeds to konsole6, and no candidate is probed twice. -/
theorem claim_C5_spawn_failure_falls_through_witness :
    runTerminalLoop (fun _ => true) (fun a => a.head? == some "konsole") "apt clean"
        (("konsole", ["konsole", "-e"]) :: (terminals "apt clean").tail) =
      Event.probe "konsole" :: Event.log ("Erro ao tentar terminal " ++ "konsole" ++ ":") ::
        runTerminalLoop (fun _ => true) (fun a => a.head? == some "konsole") "apt clean"
          (terminals "apt clean").tail ∧
    (run_terminal_command (fun _ => true) (fun a => a.head? == some "konsole") "apt clean"
        "apt clean").count (Event.probe "konsole") ≤ 1 :=
  ⟨(claim_C5_spawn_failure_falls_through (fun _ => true) (fun a => a.head? == some "konsole")
      "apt clean" "konsole" ["konsole", "-e"] (terminals "apt clean").tail rfl
      (by decide)).1,
   (claim_C5_spawn_failure_falls_through (fun _ => true) (fun a => a.head? == some "konsole")
      "apt clean" "konsole" ["konsole", "-e"] (terminals "apt clean").tail rfl
      (by decide)).2 "apt clean" "konsole"⟩

/-- Claim C6: every call of `run_terminal_command` performs at most one
successful spawn, and when no candidate is installed the call fails closed:
the trace is the probes plus the warning dialog, containing no spawn at all
(in particular no fallback to a `pkexec` or direct spawn). -/
theorem claim_C6_at_most_one_spawn (which : Which) (fails : Fails) (title cmd : String) :
    (run_terminal_command which fails title cmd).countP isSpawnEv ≤ 1 ∧
    ((∀ t ∈ terminals title, which t.1 = false) →
      run_terminal_command which fails title cmd =
        ((terminals title).map fun t => Event.probe t.1) ++ [Event.warn "Erro" noTerminalMsg] ∧
      ∀ a, Event.spawn a ∉ run_terminal_command which fails title cmd) := by
  constructor
  · exact loop_spawn_count which fails cmd (terminals title)
  · intro h
    have heq : run_terminal_command which fails title cmd =
        ((terminals title).map fun t => Event.probe t.1) ++ [Event.warn "Erro" noTerminalMsg] :=
      loop_none_installed which fails cmd (terminals title) h
    refine ⟨heq, ?_⟩
    intro a ha
    rw [heq] at ha
    simp at ha

/-- Witness for C6: with every binary installed and no failure at most one
spawn occurs, and with nothing installed the upgrade command produces the
probes-plus-warning trace. -/
theorem claim_C6_at_most_one_spawn_witness :
    (run_terminal_command (fun _ => true) (fun _ => false) "apt clean" "apt clean").countP
      isSpawnEv ≤ 1 ∧
    run_terminal_command (fun _ => false) (fun _ => false) "apt clean" "apt clean" =
      ((terminals "apt clean").map fun t => Event.probe t.1)
        ++ [Event.warn "Erro" noTerminalMsg] :=
  ⟨(claim_C6_at_most_one_spawn (fun _ => true) (fun _ => false) "apt clean" "apt clean").1,
   ((claim_C6_at_most_one_spawn (fun _ => false) (fun _ => false) "apt clean" "apt clean").2
      (fun _ _ => rfl)).1⟩

/-! ### Claims about the confirmation gate and the other launchers -/

/-- Claim C2: for each of the four destructive APT actions, the terminal-hosted
command is handed to `run_terminal_command` exactly when the synchronous yes/no
question resolved to yes; when the user answers No (or dismisses the dialog,
which activates the No button), the trace is the question alone — zero
processes spawned and no other side effect. -/
theorem claim_C2_confirmation_gate (r : Reply) (which : Which) (fails : Fails) :
    (ask_question r = true →
      confirm_autoclean r which fails =
        Event.ask "Confirmar" "Isto removerá TODOS os pacotes do cache.\nDeseja continuar?" ::
          run_terminal_command which fails "apt clean" "apt clean" ∧
      confirm_autoremove r which fails =
        Event.ask "Confirmar" "Isto removerá somente os pacotes órfãos.\nDeseja continuar?" ::
          run_terminal_command which fails "apt autoremove --purge -y"
            "apt autoremove --purge -y" ∧
      confirm_fixbroken r which fails =
        Event.ask "Confirmar" "Esta ação corrigirá as dependências quebradas.\nDeseja continuar?" ::
          run_terminal_command which fails "apt fix-broken" "apt --fix-broken install -y" ∧
      confirm_upgrade r which fails =
        Event.ask "Confirmar" "Atualizar todos os pacotes?" ::
          run_terminal_command which fails "apt update && sudo apt full-upgrade -y"
            "apt update && sudo apt full-upgrade -y") ∧
    (ask_question r = false →
      confirm_autoclean r which fails =
        [Event.ask "Confirmar" "Isto removerá TODOS os pacotes do cache.\nDeseja continuar?"] ∧
      confirm_autoremove r which fails =
        [Event.ask "Confirmar" "Isto removerá somente os pacotes órfãos.\nDeseja continuar?"] ∧
      confirm_fixbroken r which fails =
        [Event.ask "Confirmar" "Esta ação corrigirá as dependências quebradas.\nDeseja continuar?"] ∧
      confirm_upgrade r which fails =
        [Event.ask "Confirmar" "Atualizar todos os pacotes?"] ∧
      (∀ a, Event.spawn a ∉ confirm_autoclean r which fails) ∧
      (∀ a, Event.spawn a ∉ confirm_autoremove r which fails) ∧
      (∀ a, Event.spawn a ∉ confirm_fixbroken r which fails) ∧
      (∀ a, Event.spawn a ∉ confirm_upgrade r which fails)) := by
  constructor
  · intro h
    refine ⟨?_, ?_, ?_, ?_⟩ <;>
      simp [confirm_autoclean, confirm_autoremove, confirm_fixbroken, confirm_upgrade, h]
  · intro h
    refine ⟨?_, ?_, ?_, ?_, ?_, ?_, ?_, ?_⟩ <;>
      simp [confirm_autoclean, confirm_autoremove, confirm_fixbroken, confirm_upgrade, h]

/-- Witness for C2 at the spec's scenario: the upgrade question "Atualizar
todos os pacotes?" answered No produces the question event and nothing else,
even on a host with every terminal installed. -/
theorem claim_C2_confirmation_gate_witness :
    confirm_upgrade Reply.no (fun _ => true) (fun _ => false) =
      [Event.ask "Confirmar" "Atualizar todos os pacotes?"] ∧
    confirm_upgrade Reply.yes (fun _ => true) (fun _ => false) =
      Event.ask "Confirmar" "Atualizar todos os pacotes?" ::
        run_terminal_command (fun _ => true) (fun _ => false)
          "apt update && sudo apt full-upgrade -y" "apt update && sudo apt full-upgrade -y" :=
  ⟨((claim_C2_confirmation_gate Reply.no (fun _ => true) (fun _ => false)).2 rfl).2.2.2.1,
   ((claim_C2_confirmation_gate Reply.yes (fun _ => true) (fun _ => false)).1 rfl).2.2.2⟩

/-- Claim C4: `run_polkit_command` builds a seven-element pkexec argument
vector whose third and fourth entries are the current DISPLAY and XAUTHORITY
values passed verbatim, and when either variable is unset the assignment is
still present with an empty value (never omitted); absent a spawn failure that
exact vector is spawned. -/
theorem claim_C4_env_passthrough (env : String → Option String) (fails : Fails)
    (cmd : String) :
    polkitArgv env cmd =
      ["pkexec", "env", "DISPLAY=" ++ (env "DISPLAY").getD "",
       "XAUTHORITY=" ++ (env "XAUTHORITY").getD "", "bash", "-lc", cmd] ∧
    (fails (polkitArgv env cmd) = false →
      run_polkit_command env fails cmd = [Event.spawn (polkitArgv env cmd)]) ∧
    (∀ d, env "DISPLAY" = some d →
      (polkitArgv env cmd).get? 2 = some ("DISPLAY=" ++ d)) ∧
    (∀ x, env "XAUTHORITY" = some x →
      (polkitArgv env cmd).get? 3 = some ("XAUTHORITY=" ++ x)) ∧
    (env "DISPLAY" = none → (polkitArgv env cmd).get? 2 = some "DISPLAY=") ∧
    (env "XAUTHORITY" = none → (polkitArgv env cmd).get? 3 = some "XAUTHORITY=") ∧
    (polkitArgv env cmd).length = 7 := by
  refine ⟨rfl, ?_, ?_, ?_, ?_, ?_, rfl⟩
  · intro h
    simp [run_polkit_command, h]
  · intro d hd
    simp [polkitArgv, hd]
  · intro x hx
    simp [polkitArgv, hx]
  · intro h
    simp [polkitArgv, h]
  · intro h
    simp [polkitArgv, h]

/-- Witness for C4: with both variables unset the spawned vector carries the
empty-valued assignments `DISPLAY=` and `XAUTHORITY=` rather than omitting
them. -/
theorem claim_C4_env_passthrough_witness :
    run_polkit_command (fun _ => none) (fun _ => false) "synaptic" =
      [Event.spawn (polkitArgv (fun _ => none) "synaptic")] ∧
    (polkitArgv (fun _ => none) "synaptic").get? 2 = some "DISPLAY=" ∧
    (polkitArgv (fun _ => none) "synaptic").get? 3 = some "XAUTHORITY=" :=
  ⟨(claim_C4_env_passthrough (fun _ => none) (fun _ => false) "synaptic").2.1 rfl,
   (claim_C4_env_passthrough (fun _ => none) (fun _ => false) "synaptic").2.2.2.2.1 rfl,
   (claim_C4_env_passthrough (fun _ => none) (fun _ => false) "synaptic").2.2.2.2.2.1 rfl⟩

/-- Claim C8: when spawning the pkexec vector itself fails,
`run_polkit_command` produces exactly one console log — no warning dialog of
any kind and no spawn — and the function returns normally (total function, no
escaping exception). -/
theorem claim_C8_pkexec_failure_logged_only (env : String → Option String) (fails : Fails)
    (cmd : String) (h : fails (polkitArgv env cmd) = true) :
    run_polkit_command env fails cmd = [Event.log "Error executing pkexec:"] ∧
    (∀ t m, Event.warn t m ∉ run_polkit_command env fails cmd) ∧
    (∀ a, Event.spawn a ∉ run_polkit_command env fails cmd) ∧
    (∀ t m, Event.ask t m ∉ run_polkit_command env fails cmd) := by
  have heq : run_polkit_command env fails cmd = [Event.log "Error executing pkexec:"] := by
    simp [run_polkit_command, h]
  refine ⟨heq, ?_, ?_, ?_⟩
  · intro t m hm
    rw [heq] at hm
    simp at hm
  · intro a ha
    rw [heq] at ha
    simp at ha
  · intro t m hm
    rw [heq] at hm
    simp at hm

/-- Witness for C8: a host where every spawn fails — the gparted pkexec launch
leaves only the console log. -/
theorem claim_C8_pkexec_failure_logged_only_witness :
    run_polkit_command (fun _ => none) (fun _ => true) "gparted" =
      [Event.log "Error executing pkexec:"] :=
  (claim_C8_pkexec_failure_logged_only (fun _ => none) (fun _ => true) "gparted" rfl).1

/-- Claim C9: a cancelled .deb picker (empty path) leads to no viewer spawn
and no further dialog; a non-empty path leads to the viewer spawned on exactly
that path when `deb-gview` is installed, and to the warning dialog instead
when it is not. -/
theorem claim_C9_deb_dialog (which : Which) (path : String) :
    open_deb_dialog "" which =
      [Event.pick "Selecionar arquivo .deb" "/var/cache/apt/archives"
        "Pacotes Debian (*.deb)"] ∧
    (path ≠ "" → which "deb-gview" = true →
      open_deb_dialog path which =
        [Event.pick "Selecionar arquivo .deb" "/var/cache/apt/archives"
          "Pacotes Debian (*.deb)",
         Event.spawn ["deb-gview", path]]) ∧
    (path ≠ "" → which "deb-gview" = false →
      open_deb_dialog path which =
        [Event.pick "Selecionar arquivo .deb" "/var/cache/apt/archives"
          "Pacotes Debian (*.deb)",
         Event.warn "Erro" "deb-gview não instalado."]) := by
  refine ⟨by simp [open_deb_dialog], ?_, ?_⟩
  · intro hp hw
    simp [open_deb_dialog, hp, hw]
  · intro hp hw
    simp [open_deb_dialog, hp, hw]

/-- Witness for C9: cancelled picker yields only the picker event; a chosen
path with deb-gview installed yields the viewer spawn on that path. -/
theorem claim_C9_deb_dialog_witness :
    open_deb_dialog "" (fun _ => true) =
      [Event.pick "Selecionar arquivo .deb" "/var/cache/apt/archives"
        "Pacotes Debian (*.deb)"] ∧
    open_deb_dialog "/var/cache/apt/archives/foo.deb" (fun _ => true) =
      [Event.pick "Selecionar arquivo .deb" "/var/cache/apt/archives"
        "Pacotes Debian (*.deb)",
       Event.spawn ["deb-gview", "/var/cache/apt/archives/foo.deb"]] :=
  ⟨(claim_C9_deb_dialog (fun _ => true) "").1,
   (claim_C9_deb_dialog (fun _ => true) "/var/cache/apt/archives/foo.deb").2.1
     (by decide) rfl⟩

/-- Counterexample for C7 as stated: the "Instalador de Pacotes .deb" button
is a UI action requiring the external tool gdebi-gtk, but its handler is a bare
`subprocess.Popen(["gdebi-gtk"])`: on a host without gdebi-gtk it shows no
warning dialog at all (empty trace) and lets the `FileNotFoundError` escape
the handler. -/
theorem claim_C7_counterexample :
    gdebi_clicked (fun _ => false) = ([], true) := by
  simp [gdebi_clicked]

/-- Claim C7 (amended): the UI actions that guard their spawn with an
installation check report a missing tool via a blocking warning dialog naming
the tool or tool family and their handler returns normally — hardinfo, the
.deb viewer, all four Flatpak-hosted tools (sysd-manager, Resources,
Warehouse, Flatsweep) and the terminal runner — while the unguarded
direct-spawn actions such as the gdebi button show no dialog and let the spawn
error escape the handler. -/
theorem claim_C7_missing_tool_dialogs (which : Which) (fails : Fails)
    (path title cmd : String) (hpath : path ≠ "") :
    (which "hardinfo2" = false → which "hardinfo" = false →
      open_hardinfo which = [Event.warn "Erro" "Hardinfo não instalado."]) ∧
    (which "deb-gview" = false →
      open_deb_dialog path which =
        [Event.pick "Selecionar arquivo .deb" "/var/cache/apt/archives"
          "Pacotes Debian (*.deb)",
         Event.warn "Erro" "deb-gview não instalado."]) ∧
    (which "flatpak" = false →
      open_sysd_manager which fails = [Event.warn "Erro" "Flatpak não instalado."] ∧
      open_resources which fails = [Event.warn "Erro" "Flatpak não instalado."] ∧
      open_warehouse which fails = [Event.warn "Erro" "Flatpak não instalado."] ∧
      open_flatsweep which fails = [Event.warn "Erro" "Flatpak não instalado."]) ∧
    ((∀ t ∈ terminals title, which t.1 = false) →
      run_terminal_command which fails title cmd =
        ((terminals title).map fun t => Event.probe t.1)
          ++ [Event.warn "Erro" noTerminalMsg]) ∧
    (which "gdebi-gtk" = false → gdebi_clicked which = ([], true)) := by
  refine ⟨?_, ?_, ?_, ?_, ?_⟩
  · intro h2 h1
    simp [open_hardinfo, h2, h1]
  · intro hw
    simp [open_deb_dialog, hpath, hw]
  · intro hw
    exact ⟨by simp [open_sysd_manager, hw], by simp [open_resources, hw],
      by simp [open_warehouse, hw], by simp [open_flatsweep, hw]⟩
  · intro h
    exact loop_none_installed which fails cmd (terminals title) h
  · intro hw
    simp [gdebi_clicked, hw]

/-- Witness for C7 (amended) on a host with no tools installed: hardinfo, the
four Flatpak-hosted tools and the terminal runner warn, while the gdebi
handler shows nothing and raises. -/
theorem claim_C7_missing_tool_dialogs_witness :
    open_hardinfo (fun _ => false) = [Event.warn "Erro" "Hardinfo não instalado."] ∧
    open_sysd_manager (fun _ => false) (fun _ => false) =
      [Event.warn "Erro" "Flatpak não instalado."] ∧
    open_resources (fun _ => false) (fun _ => false) =
      [Event.warn "Erro" "Flatpak não instalado."] ∧
    open_warehouse (fun _ => false) (fun _ => false) =
      [Event.warn "Erro" "Flatpak não instalado."] ∧
    open_flatsweep (fun _ => false) (fun _ => false) =
      [Event.warn "Erro" "Flatpak não instalado."] ∧
    run_terminal_command (fun _ => false) (fun _ => false) "apt clean" "apt clean" =
      ((terminals "apt clean").map fun t => Event.probe t.1)
        ++ [Event.warn "Erro" noTerminalMsg] ∧
    gdebi_clicked (fun _ => false) = ([], true) :=
  ⟨(claim_C7_missing_tool_dialogs (fun _ => false) (fun _ => false) "x.deb" "apt clean"
      "apt clean" (by decide)).1 rfl rfl,
   ((claim_C7_missing_tool_dialogs (fun _ => false) (fun _ => false) "x.deb" "apt clean"
      "apt clean" (by decide)).2.2.1 rfl).1,
   ((claim_C7_missing_tool_dialogs (fun _ => false) (fun _ => false) "x.deb" "apt clean"
      "apt clean" (by decide)).2.2.1 rfl).2.1,
   ((claim_C7_missing_tool_dialogs (fun _ => false) (fun _ => false) "x.deb" "apt clean"
      "apt clean" (by decide)).2.2.1 rfl).2.2.1,
   ((claim_C7_missing_tool_dialogs (fun _ => false) (fun _ => false) "x.deb" "apt clean"
      "apt clean" (by decide)).2.2.1 rfl).2.2.2,
   (claim_C7_missing_tool_dialogs (fun _ => false) (fun _ => false) "x.deb" "apt clean"
      "apt clean" (by decide)).2.2.2.1 (fun _ _ => rfl),
   (claim_C7_missing_tool_dialogs (fun _ => false) (fun _ => false) "x.deb" "apt clean"
      "apt clean" (by decide)).2.2.2.2 rfl⟩

/-- Claim C10: the behaviour of `run_terminal_command` does not depend on the
title argument except through the xterm candidate: (i) whenever xterm is not
installed the whole trace is title-independent for any spawn-failure pattern;
(ii) when the first installed candidate is not xterm the trace is
title-independent (no spawn failures); (iii) the candidate table restricted to
the non-xterm entries is the same for all titles; (iv) only the final xterm
entry embeds the title in its launch vector. -/
theorem claim_C10_title_independence (which : Which) (fails : Fails) (cmd t1 t2 : String) :
    (which "xterm" = false →
      run_terminal_command which fails t1 cmd = run_terminal_command which fails t2 cmd) ∧
    (∀ b l, (terminals t1).find? (fun t => which t.1) = some (b, l) → b ≠ "xterm" →
      run_terminal_command which (fun _ => false) t1 cmd =
        run_terminal_command which (fun _ => false) t2 cmd) ∧
    ((terminals t1).filter (fun t => t.1 != "xterm") =
      (terminals t2).filter (fun t => t.1 != "xterm")) ∧
    (terminals t1).getLast? = some ("xterm", ["xterm", "-T", t1, "-e"]) := by
  refine ⟨?_, ?_, ?_, rfl⟩
  · intro hx
    simp [run_terminal_command, terminals, runTerminalLoop, hx]
  · intro b l h hb
    cases hfb : baseT.find? (fun t => which t.1) with
    | none =>
      exfalso
      have h2 : (terminals t1).find? (fun t => which t.1) =
          ([("xterm", ["xterm", "-T", t1, "-e"])] :
            List (String × List String)).find? (fun t => which t.1) :=
        find?_append_none baseT _ hfb
      rw [h2] at h
      cases hx : which "xterm"
      · simp [List.find?, hx] at h
      · simp [List.find?, hx] at h
        exact hb h.1.symm
    | some v =>
      have h1 : (terminals t1).find? (fun t => which t.1) = some v :=
        find?_append_some baseT _ hfb
      rw [h1] at h
      have hv : v = (b, l) := Option.some.inj h
      subst hv
      have e1 : runTerminalLoop which (fun _ => false) cmd (terminals t1) =
          ((terminals t1).takeWhile (fun t => !which t.1)).map (fun t => Event.probe t.1)
            ++ [Event.probe b, Event.spawn (l ++ [wrapCmd cmd])] :=
        loop_first_match which cmd b l (terminals t1) h1
      have h1b : (terminals t2).find? (fun t => which t.1) = some (b, l) :=
        find?_append_some baseT _ hfb
      have e2 : runTerminalLoop which (fun _ => false) cmd (terminals t2) =
          ((terminals t2).takeWhile (fun t => !which t.1)).map (fun t => Event.probe t.1)
            ++ [Event.probe b, Event.spawn (l ++ [wrapCmd cmd])] :=
        loop_first_match which cmd b l (terminals t2) h1b
      have tw1 : (terminals t1).takeWhile (fun t => !which t.1) =
          baseT.takeWhile (fun t => !which t.1) :=
        takeWhile_append_stop baseT _ hfb
      have tw2 : (terminals t2).takeWhile (fun t => !which t.1) =
          baseT.takeWhile (fun t => !which t.1) :=
        takeWhile_append_stop baseT _ hfb
      rw [tw1] at e1
      rw [tw2] at e2
      exact e1.trans e2.symm
  · simp [terminals]

/-- Witness for C10: with only tilix installed, the upgrade trace is the same
for two different titles. -/
theorem claim_C10_title_independence_witness :
    run_terminal_command (fun s => s == "tilix") (fun _ => false) "apt clean"
        "apt clean" =
      run_terminal_command (fun s => s == "tilix") (fun _ => false) "apt fix-broken"
        "apt clean" :=
  (claim_C10_title_independence (fun s => s == "tilix") (fun _ => false) "apt clean"
    "apt clean" "apt fix-broken").1 (by decide)

end DCC
